import Mathlib

/-!
Shallow embedding of the compatibility-scoring core of the
steam-compatibility-checker repository: the `CompatibilityAnalyzer` class
(src/services/compatibility-analyzer.ts), the `CoopGameSuggester` class
(src/services/coop-game-suggester.ts) and the static co-op catalog
(src/data/coop-games.ts), over the type definitions of src/types.

Modelling conventions:
- JavaScript numbers are modelled as exact rationals (`Rat`); every numeric
  operation of the embedded code (+, *, /, min, max, comparison) is exact in
  `Rat`, matching the source formulas symbolically.
- `Math.round` (round half toward positive infinity) is `jsRound`.
- `Math.sqrt` appears only inside the Pearson-correlation helper.  It is
  modelled by `ratSqrtApprox`, which is exact whenever the radicand is the
  square of a rational (in particular on the zero-variance branch the source
  guards explicitly); no theorem below depends on an irrational square root.
- A JavaScript `Map` built from an entry list keeps the last entry for a
  duplicated key; `Map.set` updates a value in place, preserving key-insertion
  order; a `Set` iterates in insertion order.  These are modelled with
  association lists and order-preserving folds.
- `Array.prototype.sort` (stable since ES2019) with the comparator
  `(a, b) => b.k - a.k` is modelled by the stable `List.insertionSort` with
  the relation `fun a b => b.k ≤ a.k` (descending, ties keep input order).
- `Object.values` of an object with integer-like keys yields the values in
  ascending numeric key order; the catalog list below is written in that
  order.
- Thrown errors are modelled with `Except`; a bare `new Error(msg)` and a
  thrown `CompatibilityAnalysisError` literal are the two constructors of
  `AnalyzeError`.
- The `new Date()` read in `analyze` is modelled by an explicit clock
  argument `t` to `analyzeAt`.
-/

namespace SteamCC

/-- Steam game record (src/types/steam.ts `Game`).  Playtimes are minutes. -/
structure Game where
  appId : Nat
  name : String
  playtimeForever : Rat
  playtime2Weeks : Option Rat := none
  imgIconUrl : Option String := none
  genres : Option (List String) := none
deriving DecidableEq, Repr

/-- One user's game library (src/types/steam.ts `GameLibrary`). -/
structure GameLibrary where
  games : List Game
  totalCount : Nat
  isPublic : Bool
deriving DecidableEq, Repr

/-- Derived common-game entry (src/types/compatibility.ts `CommonGame`).
The source always assigns `isCoopSupported` and `genres` (with `|| []`), so
the optional fields of the TS interface are concrete here. -/
structure CommonGame where
  appId : Nat
  name : String
  user1Playtime : Rat
  user2Playtime : Rat
  compatibilityFactor : Rat
  isCoopSupported : Bool
  genres : List String
deriving DecidableEq, Repr

/-- Per-genre affinity record (src/types/compatibility.ts `GenreCompatibility`). -/
structure GenreCompatibility where
  genre : String
  user1Count : Nat
  user2Count : Nat
  commonCount : Nat
  compatibilityScore : Rat
deriving DecidableEq, Repr

/-- Aggregate playtime statistics (src/types/compatibility.ts
`PlaytimeCompatibility`). -/
structure PlaytimeCompatibility where
  averagePlaytimeDifference : Rat
  playtimeCorrelation : Rat
  similarPlaytimeGames : Nat
  totalCommonPlaytime : Rat
deriving DecidableEq, Repr

/-- Game recommendation record (src/types/compatibility.ts
`GameRecommendation`). -/
structure GameRecommendation where
  appId : Nat
  name : String
  recommendationScore : Rat
  reason : String
  genres : List String
  estimatedPlaytime : Rat
deriving DecidableEq, Repr

/-- Cooperative-play mode (src/types/coop.ts `CoopType`: the string union
`'local' | 'online' | 'both'`; `local` is a Lean keyword, hence the
constructor names). -/
inductive CoopType where
  | localCoop
  | onlineCoop
  | bothCoop
deriving DecidableEq, Repr

/-- Catalog entry (src/types/coop.ts `CoopGameInfo`). -/
structure CoopGameInfo where
  appId : Nat
  name : String
  coopType : CoopType
  maxPlayers : Nat
  description : String
  steamUrl : String
  genres : List String
  isPopular : Bool
deriving DecidableEq, Repr

/-- Co-op suggestion record (src/types/coop.ts `CoopGameSuggestion`). -/
structure CoopGameSuggestion where
  appId : Nat
  name : String
  coopType : CoopType
  maxPlayers : Nat
  description : String
  steamUrl : String
  compatibilityScore : Rat
  recommendationReason : String
  bothOwnGame : Bool
deriving DecidableEq, Repr

/-- Optional suggestion filter (src/types/coop.ts `CoopGameFilter`). -/
structure CoopGameFilter where
  coopType : Option CoopType := none
  maxPlayers : Option Nat := none
  genres : Option (List String) := none
  minCompatibilityScore : Option Rat := none
deriving DecidableEq, Repr

/-- Component weights of the analysis config
(src/types/compatibility.ts `CompatibilityAnalysisConfig.weights`). -/
structure AnalysisWeights where
  commonGames : Rat
  genreCompatibility : Rat
  playtimeCompatibility : Rat
  coopBonus : Rat
deriving DecidableEq, Repr

/-- Analysis configuration (src/types/compatibility.ts
`CompatibilityAnalysisConfig`). -/
structure CompatibilityAnalysisConfig where
  weights : AnalysisWeights
  minPlaytimeForAnalysis : Rat
  maxRecommendations : Nat
  maxCoopSuggestions : Nat
deriving DecidableEq, Repr

/-- Default configuration built in the `CompatibilityAnalyzer` constructor. -/
def defaultConfig : CompatibilityAnalysisConfig :=
  { weights :=
      { commonGames := 35/100
        genreCompatibility := 25/100
        playtimeCompatibility := 25/100
        coopBonus := 15/100 }
    minPlaytimeForAnalysis := 30
    maxRecommendations := 10
    maxCoopSuggestions := 8 }

/-- Discriminant tags of `CompatibilityAnalysisError`
(src/types/compatibility.ts). -/
inductive ErrorType where
  | INSUFFICIENT_DATA
  | PRIVATE_PROFILE
  | API_ERROR
  | CALCULATION_ERROR
deriving DecidableEq, Repr

/-- Values thrown by the analyzer: a bare `new Error(message)` (no
discriminant tag) or a `CompatibilityAnalysisError` literal carrying a
discriminant tag and a message. -/
inductive AnalyzeError where
  | plainError (message : String)
  | analysisError (tag : ErrorType) (message : String)
deriving DecidableEq, Repr

/-- Discriminant tag carried by a thrown value, if any. -/
def AnalyzeError.tagOf : AnalyzeError → Option ErrorType
  | .plainError _ => none
  | .analysisError tag _ => some tag

/-- Root result aggregate (src/types/compatibility.ts `CompatibilityResult`).
`analysisDate` is the epoch instant read by `new Date()`. -/
structure CompatibilityResult where
  score : Int
  commonGames : List CommonGame
  genreCompatibility : List GenreCompatibility
  playtimeCompatibility : PlaytimeCompatibility
  recommendations : List GameRecommendation
  coopSuggestions : List CoopGameSuggestion
  analysisDate : Rat
  user1SteamId : String
  user2SteamId : String
deriving DecidableEq, Repr

/-- JavaScript `Math.round`: round half toward positive infinity. -/
def jsRound (q : Rat) : Int := (q + 1/2).floor

/-- JavaScript `Math.min` on two (non-NaN) numbers.  Kept as an explicit
conditional so the kernel can evaluate it on concrete inputs; equal to the
order-theoretic `min` (`jsMin_eq_min`). -/
def jsMin (a b : Rat) : Rat := if a ≤ b then a else b

/-- JavaScript `Math.max` on two (non-NaN) numbers; equal to the
order-theoretic `max` (`jsMax_eq_max`). -/
def jsMax (a b : Rat) : Rat := if a ≤ b then b else a

/-- JavaScript `Math.abs`; equal to `|·|` (`jsAbs_eq_abs`). -/
def jsAbs (a : Rat) : Rat := if a < 0 then -a else a

/-- Stand-in for `Math.sqrt`, exact on squares of rationals (the numerator
and denominator of a reduced rational square are perfect squares).  The one
caller guards the zero radicand separately and no theorem in this file
evaluates it on a non-square radicand. -/
def ratSqrtApprox (q : Rat) : Rat :=
  (Nat.sqrt q.num.toNat : Rat) / (Nat.sqrt q.den : Rat)

/-- Static co-op catalog (src/data/coop-games.ts `coopGamesDatabase`), listed
in the order `Object.values` yields it: ascending numeric key. -/
def coopGamesDatabase : List CoopGameInfo :=
  [ { appId := 550, name := "Left 4 Dead 2", coopType := .onlineCoop, maxPlayers := 4,
      description := "ゾンビサバイバル協力シューター。4人でゾンビの群れを突破",
      steamUrl := "https://store.steampowered.com/app/550/Left_4_Dead_2/",
      genres := ["Action", "Co-op", "Zombies", "FPS"], isPopular := true },
    { appId := 620, name := "Portal 2", coopType := .onlineCoop, maxPlayers := 2,
      description := "パズル協力ゲーム。2人でポータルを使って謎解きに挑戦",
      steamUrl := "https://store.steampowered.com/app/620/Portal_2/",
      genres := ["Puzzle", "Co-op", "First-Person"], isPopular := true },
    { appId := 105600, name := "Terraria", coopType := .onlineCoop, maxPlayers := 8,
      description := "2Dサンドボックス冒険ゲーム。建築、探索、ボス戦を協力プレイ",
      steamUrl := "https://store.steampowered.com/app/105600/Terraria/",
      genres := ["Sandbox", "Adventure", "Co-op", "2D"], isPopular := true },
    { appId := 218620, name := "PAYDAY 2", coopType := .onlineCoop, maxPlayers := 4,
      description := "協力強盗FPS。チームで銀行強盗や潜入ミッション",
      steamUrl := "https://store.steampowered.com/app/218620/PAYDAY_2/",
      genres := ["FPS", "Co-op", "Heist", "Crime"], isPopular := true },
    { appId := 239140, name := "Dying Light", coopType := .onlineCoop, maxPlayers := 4,
      description := "ゾンビサバイバル協力アクション。昼夜のサイクルで戦略が変化",
      steamUrl := "https://store.steampowered.com/app/239140/Dying_Light/",
      genres := ["Survival", "Co-op", "Zombies", "Parkour"], isPopular := true },
    { appId := 242760, name := "The Forest", coopType := .onlineCoop, maxPlayers := 8,
      description := "サバイバルホラー協力ゲーム。森で生き残り息子を探そう",
      steamUrl := "https://store.steampowered.com/app/242760/The_Forest/",
      genres := ["Survival", "Co-op", "Horror", "Building"], isPopular := true },
    { appId := 252950, name := "Rocket League", coopType := .onlineCoop, maxPlayers := 8,
      description := "車でサッカー。チームでゴールを目指すスポーツゲーム",
      steamUrl := "https://store.steampowered.com/app/252950/Rocket_League/",
      genres := ["Sports", "Racing", "Multiplayer", "Soccer"], isPopular := true },
    { appId := 268910, name := "Cuphead", coopType := .localCoop, maxPlayers := 2,
      description := "ローカル協力アクション。手描きアニメーションの高難度ゲーム",
      steamUrl := "https://store.steampowered.com/app/268910/Cuphead/",
      genres := ["Action", "Local Co-Op", "Platformer", "Difficult"], isPopular := true },
    { appId := 322330, name := "Don\x27t Starve Together", coopType := .onlineCoop, maxPlayers := 6,
      description := "サバイバル協力ゲーム。厳しい世界で生き残るために協力",
      steamUrl := "https://store.steampowered.com/app/322330/Dont_Starve_Together/",
      genres := ["Survival", "Co-op", "Indie", "Adventure"], isPopular := true },
    { appId := 397540, name := "Borderlands 3", coopType := .onlineCoop, maxPlayers := 4,
      description := "ルートシューター協力FPS。武器収集とボス戦を楽しもう",
      steamUrl := "https://store.steampowered.com/app/397540/Borderlands_3/",
      genres := ["FPS", "Co-op", "Loot", "Action RPG"], isPopular := true },
    { appId := 413150, name := "Stardew Valley", coopType := .onlineCoop, maxPlayers := 4,
      description := "農場経営シミュレーション。友達と一緒に農場を発展させよう",
      steamUrl := "https://store.steampowered.com/app/413150/Stardew_Valley/",
      genres := ["Simulation", "Farming", "Co-op", "Relaxing"], isPopular := true },
    { appId := 477160, name := "Human Fall Flat", coopType := .bothCoop, maxPlayers := 8,
      description := "物理パズル協力ゲーム。ふにゃふにゃキャラで謎解き",
      steamUrl := "https://store.steampowered.com/app/477160/Human_Fall_Flat/",
      genres := ["Puzzle", "Co-op", "Physics", "Platformer"], isPopular := true },
    { appId := 548430, name := "Deep Rock Galactic", coopType := .onlineCoop, maxPlayers := 4,
      description := "ドワーフ宇宙採掘協力FPS。チームで洞窟を探索し資源を採掘",
      steamUrl := "https://store.steampowered.com/app/548430/Deep_Rock_Galactic/",
      genres := ["FPS", "Co-op", "Mining", "Dwarfs"], isPopular := true },
    { appId := 582010, name := "Monster Hunter: World", coopType := .onlineCoop, maxPlayers := 4,
      description := "モンスターハンティング協力アクション。巨大モンスターを狩ろう",
      steamUrl := "https://store.steampowered.com/app/582010/Monster_Hunter_World/",
      genres := ["Action", "Co-op", "Hunting", "RPG"], isPopular := true },
    { appId := 632360, name := "Risk of Rain 2", coopType := .onlineCoop, maxPlayers := 4,
      description := "3Dローグライク協力シューター。チームで惑星を脱出",
      steamUrl := "https://store.steampowered.com/app/632360/Risk_of_Rain_2/",
      genres := ["Roguelike", "Co-op", "Third-Person Shooter", "3D"], isPopular := true },
    { appId := 648800, name := "Raft", coopType := .onlineCoop, maxPlayers := 10,
      description := "海洋サバイバル。いかだを拡張しながら海を漂流",
      steamUrl := "https://store.steampowered.com/app/648800/Raft/",
      genres := ["Survival", "Co-op", "Building", "Ocean"], isPopular := true },
    { appId := 728880, name := "Overcooked! 2", coopType := .bothCoop, maxPlayers := 4,
      description := "カオスな料理協力ゲーム。チームワークで料理を完成させよう",
      steamUrl := "https://store.steampowered.com/app/728880/Overcooked_2/",
      genres := ["Co-op", "Party Game", "Local Co-Op", "Cooking"], isPopular := true },
    { appId := 739630, name := "Phasmophobia", coopType := .onlineCoop, maxPlayers := 4,
      description := "協力ホラーゲーム。チームでゴーストハンティング",
      steamUrl := "https://store.steampowered.com/app/739630/Phasmophobia/",
      genres := ["Horror", "Co-op", "Ghosts", "Investigation"], isPopular := true },
    { appId := 892970, name := "Valheim", coopType := .onlineCoop, maxPlayers := 10,
      description := "バイキングサバイバル。北欧神話の世界で協力建築とボス戦",
      steamUrl := "https://store.steampowered.com/app/892970/Valheim/",
      genres := ["Survival", "Co-op", "Building", "Vikings"], isPopular := true },
    { appId := 945360, name := "Among Us", coopType := .onlineCoop, maxPlayers := 15,
      description := "宇宙船での人狼ゲーム。協力と裏切りの心理戦",
      steamUrl := "https://store.steampowered.com/app/945360/Among_Us/",
      genres := ["Party Game", "Multiplayer", "Social Deduction", "Space"], isPopular := true },
    { appId := 996770, name := "Moving Out", coopType := .bothCoop, maxPlayers := 4,
      description := "引っ越し協力ゲーム。チームワークで家具を運び出そう",
      steamUrl := "https://store.steampowered.com/app/996770/Moving_Out/",
      genres := ["Co-op", "Party Game", "Physics", "Local Co-Op"], isPopular := true },
    { appId := 1085660, name := "Destiny 2", coopType := .onlineCoop, maxPlayers := 6,
      description := "オンラインFPS RPG。チームでレイドやストライクに挑戦",
      steamUrl := "https://store.steampowered.com/app/1085660/Destiny_2/",
      genres := ["FPS", "MMO", "Co-op", "Sci-fi"], isPopular := true },
    { appId := 1097150, name := "Fall Guys", coopType := .onlineCoop, maxPlayers := 60,
      description := "バトルロイヤルパーティーゲーム。可愛いキャラで競争",
      steamUrl := "https://store.steampowered.com/app/1097150/Fall_Guys/",
      genres := ["Party Game", "Battle Royale", "Multiplayer", "Colorful"], isPopular := true },
    { appId := 1222700, name := "A Way Out", coopType := .onlineCoop, maxPlayers := 2,
      description := "脱獄協力アドベンチャー。2人専用の映画的体験",
      steamUrl := "https://store.steampowered.com/app/1222700/A_Way_Out/",
      genres := ["Adventure", "Co-op", "Story Rich", "Action"], isPopular := true },
    { appId := 1426210, name := "It Takes Two", coopType := .bothCoop, maxPlayers := 2,
      description := "2人専用協力アドベンチャー。様々なミニゲームで絆を深める",
      steamUrl := "https://store.steampowered.com/app/1426210/It_Takes_Two/",
      genres := ["Adventure", "Co-op", "Platformer", "Story Rich"], isPopular := true } ]

/-- Catalog lookup by identifier (src/data/coop-games.ts `getCoopGameInfo`:
`coopGamesDatabase[appId]`; the keys are pairwise distinct). -/
def getCoopGameInfo (appId : Nat) : Option CoopGameInfo :=
  coopGamesDatabase.find? (fun g => g.appId = appId)

/-- All catalog entries (src/data/coop-games.ts `getAllCoopGames`). -/
def getAllCoopGames : List CoopGameInfo := coopGamesDatabase

/-- Popular catalog entries (src/data/coop-games.ts `getPopularCoopGames`). -/
def getPopularCoopGames : List CoopGameInfo :=
  coopGamesDatabase.filter (fun g => g.isPopular)

/-- Association-list read, `map.get(k) ?? 0` for a rational-valued JS `Map`. -/
def mapGetQ (m : List (String × Rat)) (k : String) : Rat :=
  match m.find? (fun e => e.1 = k) with
  | some e => e.2
  | none => 0

/-- Association-list write, JS `map.set(k, v)`: updates in place when the key
exists (preserving key-insertion order), appends otherwise. -/
def mapSetQ (m : List (String × Rat)) (k : String) (v : Rat) : List (String × Rat) :=
  if m.any (fun e => e.1 = k) then
    m.map (fun e => if e.1 = k then (k, v) else e)
  else m ++ [(k, v)]

/-- Association-list increment for a counting JS `Map`:
`map.set(k, (map.get(k) || 0) + 1)`. -/
def bumpCount (m : List (String × Nat)) (k : String) : List (String × Nat) :=
  if m.any (fun e => e.1 = k) then
    m.map (fun e => if e.1 = k then (e.1, e.2 + 1) else e)
  else m ++ [(k, 1)]

/-- Counting-map read, `map.get(k) || 0`. -/
def lookupCount (m : List (String × Nat)) (k : String) : Nat :=
  match m.find? (fun e => e.1 = k) with
  | some e => e.2
  | none => 0

/-- JS `Set.add`: appends the element unless present (insertion order kept). -/
def addUnique (l : List String) (g : String) : List String :=
  if g ∈ l then l else l ++ [g]

/-- CompatibilityAnalyzer.calculateGameCompatibilityFactor: the per-game
pairwise factor from two playtimes and the configured minimum-playtime
threshold (`this.config.minPlaytimeForAnalysis`). -/
def calculateGameCompatibilityFactor (t p1 p2 : Rat) : Rat :=
  if p1 < t ∧ p2 < t then 1/10
  else if p1 < t ∨ p2 < t then 2/5
  else
    let maxPlaytime := jsMax p1 p2
    let minPlaytime := jsMin p1 p2
    if maxPlaytime = 0 then 1/10
    else
      let similarity := minPlaytime / maxPlaytime
      let playtimeBonus := jsMin 1 ((p1 + p2) / (60 * 20))
      jsMin 1 (similarity * (7/10) + playtimeBonus * (3/10))

/-- CoopGameSuggester.isCoopGame: `getCoopGameInfo(appId) !== undefined`. -/
def isCoopGame (appId : Nat) : Bool :=
  (getCoopGameInfo appId).isSome

/-- Loop body of CompatibilityAnalyzer.findCommonGames: the lookup of
`game1.appId` in the Map built from the second sequence (a JS `Map` keeps
the last entry for a duplicated key, hence the `reverse.find?`) and, on a
hit, the pushed CommonGame. -/
def commonEntry (t : Rat) (games2 : List Game) (game1 : Game) : Option CommonGame :=
  match games2.reverse.find? (fun g => g.appId = game1.appId) with
  | some game2 =>
      some { appId := game1.appId
             name := game1.name
             user1Playtime := game1.playtimeForever
             user2Playtime := game2.playtimeForever
             compatibilityFactor :=
               calculateGameCompatibilityFactor t game1.playtimeForever game2.playtimeForever
             isCoopSupported := isCoopGame game1.appId
             genres := game1.genres.getD [] }
  | none => none

/-- CompatibilityAnalyzer.findCommonGames: emits one entry per
first-sequence game whose id the second-sequence map holds, sorted
descending by factor (stable). -/
def findCommonGames (t : Rat) (games1 games2 : List Game) : List CommonGame :=
  (games1.filterMap (commonEntry t games2)).insertionSort
    (fun a b => b.compatibilityFactor ≤ a.compatibilityFactor)

/-- Genre-count accumulation of CompatibilityAnalyzer.analyzeGenreCompatibility
for one user: count occurrences of each genre over games with genre data and
playtime at or above the threshold. -/
def countMapOf (t : Rat) (games : List Game) : List (String × Nat) :=
  games.foldl (fun m game =>
    match game.genres with
    | some gs => if t ≤ game.playtimeForever then gs.foldl bumpCount m else m
    | none => m) []

/-- Insertion-ordered union of genres encountered by the two counting loops of
analyzeGenreCompatibility (the JS `Set` `allGenres`). -/
def genreUnionFrom (acc : List String) (t : Rat) (games : List Game) : List String :=
  games.foldl (fun acc game =>
    match game.genres with
    | some gs => if t ≤ game.playtimeForever then gs.foldl addUnique acc else acc
    | none => acc) acc

/-- Per-genre record built by the loop of
CompatibilityAnalyzer.analyzeGenreCompatibility from the two counting maps:
common = min, score = common / max * 100 (0 when max = 0), emitted when
either user owns the genre. -/
def genreRecord (genre1Count genre2Count : List (String × Nat)) (genre : String) :
    Option GenreCompatibility :=
  let user1Count := lookupCount genre1Count genre
  let user2Count := lookupCount genre2Count genre
  let commonCount := min user1Count user2Count
  let maxCount := max user1Count user2Count
  let compatibilityScore : Rat :=
    if 0 < maxCount then ((commonCount : Rat) / (maxCount : Rat)) * 100 else 0
  if 0 < user1Count ∨ 0 < user2Count then
    some { genre, user1Count, user2Count, commonCount, compatibilityScore }
  else none

/-- CompatibilityAnalyzer.analyzeGenreCompatibility: count both users'
genres, emit one record per genre of the insertion-ordered union, sorted
descending by score. -/
def analyzeGenreCompatibility (t : Rat) (games1 games2 : List Game) :
    List GenreCompatibility :=
  let genre1Count := countMapOf t games1
  let genre2Count := countMapOf t games2
  let allGenres := genreUnionFrom (genreUnionFrom [] t games1) t games2
  (allGenres.filterMap (genreRecord genre1Count genre2Count)).insertionSort
    (fun a b => b.compatibilityScore ≤ a.compatibilityScore)

/-- CompatibilityAnalyzer.calculateCorrelation: Pearson coefficient by the
sum-of-products formula, 0 on length mismatch, emptiness or a zero
denominator. -/
def calculateCorrelation (x y : List Rat) : Rat :=
  if x.length ≠ y.length ∨ x.length = 0 then 0
  else
    let n : Rat := x.length
    let sumX := x.sum
    let sumY := y.sum
    let sumXY := ((x.zip y).map (fun p => p.1 * p.2)).sum
    let sumX2 := (x.map (fun xi => xi * xi)).sum
    let sumY2 := (y.map (fun yi => yi * yi)).sum
    let numer := n * sumXY - sumX * sumY
    let denom := ratSqrtApprox ((n * sumX2 - sumX * sumX) * (n * sumY2 - sumY * sumY))
    if denom = 0 then 0 else numer / denom

/-- CompatibilityAnalyzer.calculatePlaytimeCompatibility: aggregates absolute
differences, combined playtime, the count of games whose playtime difference
is within 30% of the larger value, and the correlation of the two playtime
sequences; all zeros for an empty common list. -/
def calculatePlaytimeCompatibility (commonGames : List CommonGame) :
    PlaytimeCompatibility :=
  if commonGames.length = 0 then
    { averagePlaytimeDifference := 0, playtimeCorrelation := 0
      similarPlaytimeGames := 0, totalCommonPlaytime := 0 }
  else
    let totalDifference :=
      (commonGames.map (fun g => jsAbs (g.user1Playtime - g.user2Playtime))).sum
    let totalCommonPlaytime :=
      (commonGames.map (fun g => g.user1Playtime + g.user2Playtime)).sum
    let similarPlaytimeGames :=
      (commonGames.filter (fun g =>
        let difference := jsAbs (g.user1Playtime - g.user2Playtime)
        let maxPlaytime := jsMax g.user1Playtime g.user2Playtime
        0 < maxPlaytime ∧ difference / maxPlaytime ≤ 3/10)).length
    let playtimes1 := commonGames.map (fun g => g.user1Playtime)
    let playtimes2 := commonGames.map (fun g => g.user2Playtime)
    { averagePlaytimeDifference := totalDifference / (commonGames.length : Rat)
      playtimeCorrelation := calculateCorrelation playtimes1 playtimes2
      similarPlaytimeGames
      totalCommonPlaytime }

/-- CompatibilityAnalyzer.calculateBaseScore from the common list and the two
library sizes. -/
def calculateBaseScore (commonGames : List CommonGame)
    (totalGames1 totalGames2 : Nat) : Rat :=
  if totalGames1 = 0 ∨ totalGames2 = 0 then 0
  else
    let averageTotalGames : Rat := ((totalGames1 : Rat) + (totalGames2 : Rat)) / 2
    let commonGameRatioQ := (commonGames.length : Rat) / averageTotalGames
    let averageCompatibilityFactor : Rat :=
      if 0 < commonGames.length then
        (commonGames.map (fun g => g.compatibilityFactor)).sum / (commonGames.length : Rat)
      else 0
    jsMin 100 (commonGameRatioQ * 100 * (7/10) + averageCompatibilityFactor * 100 * (3/10))

/-- CompatibilityAnalyzer.calculateGenreScore: mean compatibility score of the
top five genre records, 0 when there are none. -/
def calculateGenreScore (genreCompatibility : List GenreCompatibility) : Rat :=
  if genreCompatibility.length = 0 then 0
  else
    let topGenres := genreCompatibility.take 5
    let averageScore :=
      (topGenres.map (fun g => g.compatibilityScore)).sum / (topGenres.length : Rat)
    jsMin 100 averageScore

/-- CompatibilityAnalyzer.calculatePlaytimeScore: correlation rescaled to
[0,100] weighted 0.6, plus the similar-count share (count / 10 * 100, not
capped here) weighted 0.4, all clamped at 100. -/
def calculatePlaytimeScore (pc : PlaytimeCompatibility) : Rat :=
  let correlationScore := (pc.playtimeCorrelation + 1) * 50
  let similarShare : Rat :=
    if 0 < pc.similarPlaytimeGames then ((pc.similarPlaytimeGames : Rat) / 10) * 100 else 0
  jsMin 100 (correlationScore * (6/10) + similarShare * (4/10))

/-- CompatibilityAnalyzer.calculateCoopBonus from the suggestion list. -/
def calculateCoopBonus (coopSuggestions : List CoopGameSuggestion) : Rat :=
  if coopSuggestions.length = 0 then 0
  else
    let ownedCoopGames := (coopSuggestions.filter (fun s => s.bothOwnGame)).length
    let highScoreCoopGames :=
      (coopSuggestions.filter (fun s => 80 ≤ s.compatibilityScore)).length
    let ownedBonus := jsMin 50 ((ownedCoopGames : Rat) * 15)
    let qualityBonus := jsMin 30 ((highScoreCoopGames : Rat) * 10)
    let varietyBonus := jsMin 20 ((coopSuggestions.length : Rat) * 3)
    jsMin 100 (ownedBonus + qualityBonus + varietyBonus)

/-- CompatibilityAnalyzer.calculateRecommendationScore: base 50, plus
`min(30, playtimeHours / 10)` for playtime, plus 5 per genre shared with the
common-game genre pool, clamped to [0,100]. -/
def calculateRecommendationScore (game : Game) (commonGames : List CommonGame) : Rat :=
  let score : Rat := 50
  let playtimeHours := game.playtimeForever / 60
  let score := score + jsMin 30 (playtimeHours / 10)
  let score :=
    match game.genres with
    | some gs =>
        let commonGenres := commonGames.flatMap (fun g => g.genres)
        score + ((gs.filter (fun genre => genre ∈ commonGenres)).length : Rat) * 5
    | none => score
  jsMin 100 (jsMax 0 score)

/-- CompatibilityAnalyzer.generateRecommendations: for each side, games the
other user does not own with playtime at or above the threshold, up to
`maxRecommendations / 2` (JS `slice` truncates the fractional bound, matching
`Nat` division), scored, merged, sorted descending and truncated. -/
def generateRecommendations (cfg : CompatibilityAnalysisConfig)
    (games1 games2 : List Game) (commonGames : List CommonGame) :
    List GameRecommendation :=
  let commonGameIds := commonGames.map (fun g => g.appId)
  let user1OnlyGames := games1.filter (fun game =>
    game.appId ∉ commonGameIds ∧ cfg.minPlaytimeForAnalysis ≤ game.playtimeForever)
  let user2OnlyGames := games2.filter (fun game =>
    game.appId ∉ commonGameIds ∧ cfg.minPlaytimeForAnalysis ≤ game.playtimeForever)
  let mkRec := fun (game : Game) =>
    { appId := game.appId
      name := game.name
      recommendationScore := calculateRecommendationScore game commonGames
      reason := game.name ++ "は相性の良いゲームです（プレイ時間: "
        ++ toString (jsRound (game.playtimeForever / 60)) ++ "時間）"
      genres := game.genres.getD []
      estimatedPlaytime := game.playtimeForever : GameRecommendation }
  let recommendations :=
    (user1OnlyGames.take (cfg.maxRecommendations / 2)).map mkRec
      ++ (user2OnlyGames.take (cfg.maxRecommendations / 2)).map mkRec
  (recommendations.insertionSort
      (fun a b => b.recommendationScore ≤ a.recommendationScore)).take
    cfg.maxRecommendations

/-- CompatibilityAnalyzer.validateInputs: missing-library check first (a bare
`Error`, no discriminant), then user 1's privacy, then user 2's, then the
both-empty check; `none` when validation passes. -/
def validateInputs (library1 library2 : Option GameLibrary) : Option AnalyzeError :=
  match library1, library2 with
  | none, _ => some (.plainError "Both game libraries are required")
  | _, none => some (.plainError "Both game libraries are required")
  | some l1, some l2 =>
    if l1.isPublic = false then
      some (.analysisError .PRIVATE_PROFILE "User 1 profile is private")
    else if l2.isPublic = false then
      some (.analysisError .PRIVATE_PROFILE "User 2 profile is private")
    else if l1.games.length = 0 ∧ l2.games.length = 0 then
      some (.analysisError .INSUFFICIENT_DATA "Both users have empty game libraries")
    else none

/-- CoopGameSuggester.getCoopTypeText (also inlined in
extractCoopFromCommonGames). -/
def getCoopTypeText : CoopType → String
  | .localCoop => "ローカル"
  | .onlineCoop => "オンライン"
  | .bothCoop => "ローカル・オンライン"

/-- CoopGameSuggester.extractCoopFromCommonGames: every common game present in
the catalog yields a suggestion scored `min(95, 70 + factor * 25)` with
`bothOwnGame = true`. -/
def extractCoopFromCommonGames (commonGames : List CommonGame) :
    List CoopGameSuggestion :=
  commonGames.filterMap (fun game =>
    match getCoopGameInfo game.appId with
    | some coopInfo =>
        some { appId := game.appId
               name := game.name
               coopType := coopInfo.coopType
               maxPlayers := coopInfo.maxPlayers
               description := coopInfo.description
               steamUrl := coopInfo.steamUrl
               compatibilityScore := jsMin 95 (70 + game.compatibilityFactor * 25)
               recommendationReason :=
                 "既に両方が所有している" ++ getCoopTypeText coopInfo.coopType ++ "co-opゲーム"
               bothOwnGame := true }
    | none => none)

/-- CoopGameSuggester.analyzePreferredGenres: weight `factor * 3` per genre of
each common game, then `min(2, playtime / 300)` per genre of each game of
either user played more than 60 minutes. -/
def analyzePreferredGenres (user1Games user2Games : List Game)
    (commonGames : List CommonGame) : List (String × Rat) :=
  let m := commonGames.foldl (fun m game =>
    game.genres.foldl (fun m genre =>
      mapSetQ m genre (mapGetQ m genre + game.compatibilityFactor * 3)) m) []
  (user1Games ++ user2Games).foldl (fun m game =>
    match game.genres with
    | some gs =>
        if 60 < game.playtimeForever then
          let playtimeWeight := jsMin 2 (game.playtimeForever / 300)
          gs.foldl (fun m genre => mapSetQ m genre (mapGetQ m genre + playtimeWeight)) m
        else m
    | none => m) m

/-- CoopGameSuggester.calculateGenreMatchScore: matched weight over total
weight, 0 on an empty genre list, empty weight map or zero total weight. -/
def calculateGenreMatchScore (gameGenres : List String)
    (preferredGenres : List (String × Rat)) : Rat :=
  if gameGenres.length = 0 ∨ preferredGenres.length = 0 then 0
  else
    let totalWeight := (preferredGenres.map (fun e => e.2)).sum
    if totalWeight = 0 then 0
    else
      let matchWeight := (gameGenres.map (fun g => mapGetQ preferredGenres g)).sum
      matchWeight / totalWeight

/-- CoopGameSuggester.generatePreferenceBasedSuggestions: catalog games owned
by neither user whose genre-match share exceeds 0.3, scored
`min(90, 40 + share * 50)`. -/
def generatePreferenceBasedSuggestions (user1Games user2Games : List Game)
    (commonGames : List CommonGame) : List CoopGameSuggestion :=
  let ownedGameIds :=
    user1Games.map (fun g => g.appId) ++ user2Games.map (fun g => g.appId)
  let preferredGenres := analyzePreferredGenres user1Games user2Games commonGames
  getAllCoopGames.filterMap (fun coopGame =>
    if coopGame.appId ∈ ownedGameIds then none
    else
      let genreMatchScore := calculateGenreMatchScore coopGame.genres preferredGenres
      if 3/10 < genreMatchScore then
        some { appId := coopGame.appId
               name := coopGame.name
               coopType := coopGame.coopType
               maxPlayers := coopGame.maxPlayers
               description := coopGame.description
               steamUrl := coopGame.steamUrl
               compatibilityScore := jsMin 90 (40 + genreMatchScore * 50)
               recommendationReason :=
                 "あなたたちの好みに合う" ++ getCoopTypeText coopGame.coopType ++ "co-opゲーム"
               bothOwnGame := false }
      else none)

/-- CoopGameSuggester.generatePopularGameSuggestions: popular catalog games
neither owned nor in the exclusion list, at the flat score 60. -/
def generatePopularGameSuggestions (user1Games user2Games : List Game)
    (excludeAppIds : List Nat) : List CoopGameSuggestion :=
  let ownedGameIds :=
    user1Games.map (fun g => g.appId) ++ user2Games.map (fun g => g.appId)
  (getPopularCoopGames.filter (fun coopGame =>
      ¬ (coopGame.appId ∈ ownedGameIds ∨ coopGame.appId ∈ excludeAppIds))).map
    (fun coopGame =>
      { appId := coopGame.appId
        name := coopGame.name
        coopType := coopGame.coopType
        maxPlayers := coopGame.maxPlayers
        description := coopGame.description
        steamUrl := coopGame.steamUrl
        compatibilityScore := 60
        recommendationReason :=
          "人気の" ++ getCoopTypeText coopGame.coopType ++ "co-opゲーム"
        bothOwnGame := false })

/-- CoopGameSuggester.applyFilter on one suggestion.  A JS truthiness guard
precedes each criterion: an absent field, and a `maxPlayers` or
`minCompatibilityScore` of 0, disable their criterion; a present `genres`
array only acts when non-empty. -/
def passesFilter (filter : CoopGameFilter) (s : CoopGameSuggestion) : Bool :=
  let coopTypeOk :=
    match filter.coopType with
    | some ct => ¬ (s.coopType ≠ ct ∧ s.coopType ≠ .bothCoop)
    | none => true
  let maxPlayersOk :=
    match filter.maxPlayers with
    | some mp => ¬ (mp ≠ 0 ∧ s.maxPlayers < mp)
    | none => true
  let genresOk :=
    match filter.genres with
    | some gs =>
        if 0 < gs.length then
          match getCoopGameInfo s.appId with
          | some coopInfo => gs.any (fun genre => genre ∈ coopInfo.genres)
          | none => false
        else true
    | none => true
  let minScoreOk :=
    match filter.minCompatibilityScore with
    | some m => ¬ (m ≠ 0 ∧ s.compatibilityScore < m)
    | none => true
  coopTypeOk && maxPlayersOk && genresOk && minScoreOk

/-- CoopGameSuggester.applyFilter: identity without a filter object, else the
per-suggestion predicate. -/
def applyFilter (suggestions : List CoopGameSuggestion)
    (filter? : Option CoopGameFilter) : List CoopGameSuggestion :=
  match filter? with
  | none => suggestions
  | some filter => suggestions.filter (passesFilter filter)

/-- Loop body of the deduplication map of
CoopGameSuggester.removeDuplicatesAndSort: a first occurrence of an id is
appended (keeping key-insertion order, as a JS `Map` does), a strictly
higher-scoring later occurrence replaces the stored value in place. -/
def dedupStep (acc : List CoopGameSuggestion) (s : CoopGameSuggestion) :
    List CoopGameSuggestion :=
  if acc.any (fun e => e.appId = s.appId) then
    acc.map (fun e =>
      if e.appId = s.appId ∧ e.compatibilityScore < s.compatibilityScore then s else e)
  else acc ++ [s]

/-- Deduplication map of CoopGameSuggester.removeDuplicatesAndSort. -/
def dedupByAppId (suggestions : List CoopGameSuggestion) : List CoopGameSuggestion :=
  suggestions.foldl dedupStep []

/-- CoopGameSuggester.removeDuplicatesAndSort: dedup keeping the highest score
per id, then stable sort descending by score. -/
def removeDuplicatesAndSort (suggestions : List CoopGameSuggestion) :
    List CoopGameSuggestion :=
  (dedupByAppId suggestions).insertionSort
    (fun a b => b.compatibilityScore ≤ a.compatibilityScore)

/-- Exclusion list handed to the popularity source by
CoopGameSuggester.generateSuggestions: the ids of everything sources 1 and 2
already produced (`suggestions.map(s => s.appId)` at that point). -/
def popularExcludeIds (commonGames : List CommonGame)
    (user1Games user2Games : List Game) : List Nat :=
  (extractCoopFromCommonGames commonGames
      ++ generatePreferenceBasedSuggestions user1Games user2Games commonGames).map
    (fun s => s.appId)

/-- Popularity-source list exactly as CoopGameSuggester.generateSuggestions
invokes it. -/
def popularSource (commonGames : List CommonGame)
    (user1Games user2Games : List Game) : List CoopGameSuggestion :=
  generatePopularGameSuggestions user1Games user2Games
    (popularExcludeIds commonGames user1Games user2Games)

/-- CoopGameSuggester.generateSuggestions: concatenation of the three sources,
optional filter, dedup-and-sort, truncation to `maxSuggestions` (the
constructor argument, `config.maxCoopSuggestions`). -/
def generateSuggestions (maxSuggestions : Nat) (commonGames : List CommonGame)
    (user1Games user2Games : List Game) (filter? : Option CoopGameFilter) :
    List CoopGameSuggestion :=
  let suggestions :=
    extractCoopFromCommonGames commonGames
      ++ generatePreferenceBasedSuggestions user1Games user2Games commonGames
      ++ popularSource commonGames user1Games user2Games
  (removeDuplicatesAndSort (applyFilter suggestions filter?)).take maxSuggestions

/-- Successful branch of CompatibilityAnalyzer.analyze after validation: the
full derivation pipeline and the result record; `t` is the instant
`new Date()` reads. -/
def analyzeCore (t : Rat) (cfg : CompatibilityAnalysisConfig)
    (library1 library2 : GameLibrary) (user1SteamId user2SteamId : String)
    (coopFilter? : Option CoopGameFilter) : CompatibilityResult :=
  let commonGames := findCommonGames cfg.minPlaytimeForAnalysis library1.games library2.games
  let genreCompatibility :=
    analyzeGenreCompatibility cfg.minPlaytimeForAnalysis library1.games library2.games
  let playtimeCompatibility := calculatePlaytimeCompatibility commonGames
  let coopSuggestions :=
    generateSuggestions cfg.maxCoopSuggestions commonGames library1.games library2.games coopFilter?
  let baseScore := calculateBaseScore commonGames library1.games.length library2.games.length
  let genreScore := calculateGenreScore genreCompatibility
  let playtimeScore := calculatePlaytimeScore playtimeCompatibility
  let coopBonus := calculateCoopBonus coopSuggestions
  let finalScore := jsMin 100 (jsMax 0
    (baseScore * cfg.weights.commonGames
      + genreScore * cfg.weights.genreCompatibility
      + playtimeScore * cfg.weights.playtimeCompatibility
      + coopBonus * cfg.weights.coopBonus))
  let recommendations := generateRecommendations cfg library1.games library2.games commonGames
  { score := jsRound finalScore
    commonGames
    genreCompatibility
    playtimeCompatibility
    recommendations
    coopSuggestions
    analysisDate := t
    user1SteamId
    user2SteamId }

/-- CompatibilityAnalyzer.analyze at clock instant `t`: validation first
(throw modelled by `Except.error`), then the derivation pipeline.  The
libraries are `Option`-typed to model a JS caller passing a missing
argument past the TS signature. -/
def analyzeAt (t : Rat) (cfg : CompatibilityAnalysisConfig)
    (library1 library2 : Option GameLibrary) (user1SteamId user2SteamId : String)
    (coopFilter? : Option CoopGameFilter) :
    Except AnalyzeError CompatibilityResult :=
  match validateInputs library1 library2 with
  | some e => .error e
  | none =>
    match library1, library2 with
    | some l1, some l2 =>
        .ok (analyzeCore t cfg l1 l2 user1SteamId user2SteamId coopFilter?)
    | _, _ => .error (.plainError "Both game libraries are required")

/-- Bridge between the executable `jsMin` and the order-theoretic `min`. -/
theorem jsMin_eq_min (a b : Rat) : jsMin a b = min a b := by
  by_cases h : a ≤ b <;> simp [jsMin, min_def, h]

/-- Bridge between the executable `jsMax` and the order-theoretic `max`. -/
theorem jsMax_eq_max (a b : Rat) : jsMax a b = max a b := by
  by_cases h : a ≤ b <;> simp [jsMax, max_def, h]

/-- Bridge between the executable `jsAbs` and the absolute value. -/
theorem jsAbs_eq_abs (a : Rat) : jsAbs a = |a| := by
  by_cases h : a < 0
  · simp [jsAbs, h, abs_of_neg h]
  · simp [jsAbs, h, abs_of_nonneg (le_of_not_lt h)]

/-- Fixture: the one game of the spec's worked scenario (id 10, 120 minutes). -/
def gameA : Game := { appId := 10, name := "A", playtimeForever := 120 }

/-- Fixture: a public one-game library holding `gameA`. -/
def libraryA : GameLibrary := { games := [gameA], totalCount := 1, isPublic := true }

/-- Fixture: a private library. -/
def privateLibrary : GameLibrary := { games := [], totalCount := 0, isPublic := false }

/-- Fixture: a game with genre Puzzle played 300 minutes (drives the
preference-matched co-op source). -/
def gamePuzzle : Game :=
  { appId := 1, name := "X", playtimeForever := 300, genres := some ["Puzzle"] }

/-- Fixture: a common game with equal playtimes on both sides. -/
def mkSimilarCommon (i : Nat) : CommonGame :=
  { appId := i, name := "g", user1Playtime := 100, user2Playtime := 100,
    compatibilityFactor := 0, isCoopSupported := false, genres := [] }

/-- Fixture: eleven common games with equal playtimes, so all eleven count as
similar-playtime games. -/
def elevenCommon : List CommonGame := (List.range 11).map mkSimilarCommon

/-- C1: the per-game compatibility factor returns exactly 0.1 when both
playtimes are below the configured threshold, exactly 0.4 when exactly one
is below, and otherwise (the source guards max = 0 separately, so max > 0
here) `min(1, (min/max)*0.7 + min(1,(p1+p2)/1200)*0.3)`; and on the worked
scenario — two public one-game libraries both holding game 10 at 120
minutes — the single CommonGame produced by `analyze` has factor 0.76. -/
theorem C1_game_compatibility_factor (t p1 p2 : Rat) (h1 : 0 ≤ p1) (h2 : 0 ≤ p2) :
    (p1 < t ∧ p2 < t → calculateGameCompatibilityFactor t p1 p2 = 1/10) ∧
    ((p1 < t ∧ ¬ p2 < t) ∨ (¬ p1 < t ∧ p2 < t) →
      calculateGameCompatibilityFactor t p1 p2 = 2/5) ∧
    (¬ p1 < t → ¬ p2 < t → 0 < max p1 p2 →
      calculateGameCompatibilityFactor t p1 p2 =
        min 1 (min p1 p2 / max p1 p2 * (7/10) + min 1 ((p1 + p2) / 1200) * (3/10))) ∧
    (analyzeAt 0 defaultConfig (some libraryA) (some libraryA) "u1" "u2" none).toOption.map
        (fun r => r.commonGames.map (fun c => c.compatibilityFactor)) = some [76/100] := by
  refine ⟨?_, ?_, ?_, ?_⟩
  · intro hb
    unfold calculateGameCompatibilityFactor
    rw [if_pos hb]
  · intro hb
    unfold calculateGameCompatibilityFactor
    rcases hb with ⟨ha, hc⟩ | ⟨ha, hc⟩
    · rw [if_neg (by tauto), if_pos (Or.inl ha)]
    · rw [if_neg (by tauto), if_pos (Or.inr hc)]
  · intro ha hb hmax
    unfold calculateGameCompatibilityFactor
    rw [if_neg (by tauto), if_neg (by tauto)]
    simp only [jsMin_eq_min, jsMax_eq_max]
    rw [if_neg (ne_of_gt hmax)]
    norm_num
  · with_unfolding_all decide

/-- C1 witness: the factor branches instantiated at threshold 30 and
playtimes 120/120 give the spec's 0.76. -/
theorem C1_game_compatibility_factor_witness :
    calculateGameCompatibilityFactor 30 120 120 =
      min 1 (min (120:Rat) 120 / max (120:Rat) 120 * (7/10)
        + min 1 (((120:Rat) + 120) / 1200) * (3/10)) :=
  (C1_game_compatibility_factor 30 120 120 (by norm_num) (by norm_num)).2.2.1
    (by norm_num) (by norm_num) (by norm_num)

/-- C3: at the failing input — a game played 600 minutes (10 hours), no
genre data, empty common list — the source's playtime bonus
`min(30, hours / 10)` yields a total of 51, while the claimed (and
source-comment-documented) 3-points-per-10-hours bonus would yield 53. -/
theorem C3_recommendation_score_failing_input :
    calculateRecommendationScore
        { appId := 20, name := "G", playtimeForever := 600 } [] = 51 ∧
    50 + jsMin 30 ((600:Rat) / 60 / 10 * 3) = 53 ∧ (51 : Rat) ≠ 53 := by
  refine ⟨by with_unfolding_all decide, by with_unfolding_all decide, by norm_num⟩

/-- C5 counterexample: on eleven similar-playtime common games the source
score is 74, while the claimed formula with the similar-count ratio capped
at its 10-game value (100%) gives 70. -/
theorem C5_counterexample :
    calculatePlaytimeScore (calculatePlaytimeCompatibility elevenCommon) = 74 ∧
    jsMin 100
        (((calculatePlaytimeCompatibility elevenCommon).playtimeCorrelation + 1) * 50 * (6/10)
          + jsMin 100
              (((calculatePlaytimeCompatibility elevenCommon).similarPlaytimeGames : Rat)
                / 10 * 100) * (4/10)) = 70 ∧
    (74 : Rat) ≠ 70 := by
  refine ⟨by with_unfolding_all decide, by with_unfolding_all decide, by norm_num⟩

/-- C5 amended: the playtime component score equals
`min(100, ((correlation+1)*50)*0.6 + (similarCount/10*100)*0.4)`; ten similar
games correspond to a 100% ratio, but the ratio itself is not capped — only
the overall minimum with 100 bounds the score. -/
theorem C5_playtime_score_formula (pc : PlaytimeCompatibility) :
    calculatePlaytimeScore pc =
      min 100 ((pc.playtimeCorrelation + 1) * 50 * (6/10)
        + (pc.similarPlaytimeGames : Rat) / 10 * 100 * (4/10)) := by
  unfold calculatePlaytimeScore
  rw [jsMin_eq_min]
  rcases Nat.eq_zero_or_pos pc.similarPlaytimeGames with h | h
  · simp [h]
  · simp [h]

/-- C2 counterexample: a missing first library raises the bare
`Error('Both game libraries are required')`, which carries no discriminant
tag, so not every raised error carries one. -/
theorem C2_counterexample :
    analyzeAt 0 defaultConfig none (some libraryA) "u1" "u2" none =
      .error (.plainError "Both game libraries are required") ∧
    AnalyzeError.tagOf (.plainError "Both game libraries are required") = none :=
  ⟨rfl, rfl⟩

/-- C2 amended: `analyze` raises exactly when validation fails, in source
order — missing libraries first (a bare message-only error without a
discriminant tag), then user 1's privacy, then user 2's privacy (each a
tagged PRIVATE_PROFILE error), then the two-empty-libraries check (a tagged
INSUFFICIENT_DATA error) — and it returns a result exactly when no check
fails, so no derived entity is produced on a failing run. -/
theorem C2_validation_behaviour (t : Rat) (cfg : CompatibilityAnalysisConfig)
    (l1? l2? : Option GameLibrary) (u1 u2 : String) (f : Option CoopGameFilter) :
    (l1? = none ∨ l2? = none →
      analyzeAt t cfg l1? l2? u1 u2 f =
        .error (.plainError "Both game libraries are required")) ∧
    (∀ l1 l2, l1? = some l1 → l2? = some l2 → l1.isPublic = false →
      analyzeAt t cfg l1? l2? u1 u2 f =
        .error (.analysisError .PRIVATE_PROFILE "User 1 profile is private")) ∧
    (∀ l1 l2, l1? = some l1 → l2? = some l2 → l1.isPublic = true →
      l2.isPublic = false →
      analyzeAt t cfg l1? l2? u1 u2 f =
        .error (.analysisError .PRIVATE_PROFILE "User 2 profile is private")) ∧
    (∀ l1 l2, l1? = some l1 → l2? = some l2 → l1.isPublic = true →
      l2.isPublic = true → l1.games = [] → l2.games = [] →
      analyzeAt t cfg l1? l2? u1 u2 f =
        .error (.analysisError .INSUFFICIENT_DATA "Both users have empty game libraries")) ∧
    ((∃ r, analyzeAt t cfg l1? l2? u1 u2 f = .ok r) ↔
      (∃ l1 l2, l1? = some l1 ∧ l2? = some l2 ∧ l1.isPublic = true ∧
        l2.isPublic = true ∧ (l1.games ≠ [] ∨ l2.games ≠ []))) := by
  refine ⟨?_, ?_, ?_, ?_, ?_⟩
  · rintro (rfl | rfl)
    · cases l2? <;> rfl
    · cases l1? <;> rfl
  · rintro l1 l2 rfl rfl hpub
    simp [analyzeAt, validateInputs, hpub]
  · rintro l1 l2 rfl rfl h1 h2
    simp [analyzeAt, validateInputs, h1, h2]
  · rintro l1 l2 rfl rfl h1 h2 hg1 hg2
    simp [analyzeAt, validateInputs, h1, h2, hg1, hg2]
  · constructor
    · rintro ⟨r, hr⟩
      cases l1? with
      | none => simp [analyzeAt, validateInputs] at hr
      | some l1 =>
        cases l2? with
        | none => simp [analyzeAt, validateInputs] at hr
        | some l2 =>
          cases hp1 : l1.isPublic with
          | false => simp [analyzeAt, validateInputs, hp1] at hr
          | true =>
            cases hp2 : l2.isPublic with
            | false => simp [analyzeAt, validateInputs, hp1, hp2] at hr
            | true =>
              by_cases hg : l1.games.length = 0 ∧ l2.games.length = 0
              · simp [analyzeAt, validateInputs, hp1, hp2, hg] at hr
              · refine ⟨l1, l2, rfl, rfl, hp1, hp2, ?_⟩
                rw [not_and_or] at hg
                rcases hg with hg | hg
                · exact Or.inl (by simpa [List.length_eq_zero] using hg)
                · exact Or.inr (by simpa [List.length_eq_zero] using hg)
    · rintro ⟨l1, l2, rfl, rfl, h1, h2, hne⟩
      refine ⟨analyzeCore t cfg l1 l2 u1 u2 f, ?_⟩
      have hg : ¬ (l1.games = [] ∧ l2.games = []) := by
        rcases hne with hne | hne
        · exact fun hc => hne hc.1
        · exact fun hc => hne hc.2
      simp [analyzeAt, validateInputs, h1, h2, hg]

/-- C2 witness: a private first library raises the tagged
PRIVATE_PROFILE error for user 1. -/
theorem C2_validation_behaviour_witness :
    analyzeAt 0 defaultConfig (some privateLibrary) (some libraryA) "u1" "u2" none =
      .error (.analysisError .PRIVATE_PROFILE "User 1 profile is private") :=
  (C2_validation_behaviour 0 defaultConfig (some privateLibrary) (some libraryA)
    "u1" "u2" none).2.1 privateLibrary libraryA rfl rfl rfl

/-- Timestamp-erasing projection used to state determinism of `analyze` in
every field except `analysisDate`. -/
def eraseAnalysisDate (r : CompatibilityResult) : CompatibilityResult :=
  { r with analysisDate := 0 }

/-- C6 counterexample: two invocations of `analyze` on equal inputs at
different clock instants return results that differ — precisely in the
`analysisDate` field, which records the invocation time. -/
theorem C6_counterexample :
    (analyzeAt 0 defaultConfig (some libraryA) (some libraryA) "u1" "u2" none).toOption.map
        (fun r => r.analysisDate) = some 0 ∧
    (analyzeAt 1 defaultConfig (some libraryA) (some libraryA) "u1" "u2" none).toOption.map
        (fun r => r.analysisDate) = some 1 ∧
    analyzeAt 0 defaultConfig (some libraryA) (some libraryA) "u1" "u2" none ≠
      analyzeAt 1 defaultConfig (some libraryA) (some libraryA) "u1" "u2" none := by
  refine ⟨rfl, rfl, fun h => ?_⟩
  have e0 : (analyzeAt 0 defaultConfig (some libraryA) (some libraryA) "u1" "u2"
      none).toOption.map (fun r => r.analysisDate) = some 0 := rfl
  have e1 : (analyzeAt 1 defaultConfig (some libraryA) (some libraryA) "u1" "u2"
      none).toOption.map (fun r => r.analysisDate) = some 1 := rfl
  rw [h, e1] at e0
  exact absurd (Option.some.inj e0) (by norm_num)

/-- C6 amended: `analyze` is a pure function of its inputs and the clock
instant; results of two invocations with equal inputs agree on every field
except `analysisDate`, and `analysisDate` equals the instant of the
invocation that produced the result. -/
theorem C6_deterministic_up_to_timestamp (t1 t2 : Rat)
    (cfg : CompatibilityAnalysisConfig) (l1? l2? : Option GameLibrary)
    (u1 u2 : String) (f : Option CoopGameFilter) :
    (analyzeAt t1 cfg l1? l2? u1 u2 f).map eraseAnalysisDate =
      (analyzeAt t2 cfg l1? l2? u1 u2 f).map eraseAnalysisDate ∧
    (analyzeAt t1 cfg l1? l2? u1 u2 f).toOption.map (fun r => r.analysisDate) =
      (analyzeAt t1 cfg l1? l2? u1 u2 f).toOption.map (fun _ => t1) := by
  cases hv : validateInputs l1? l2? with
  | some e =>
    unfold analyzeAt
    rw [hv]
    exact ⟨rfl, rfl⟩
  | none =>
    cases l1? with
    | none => simp [validateInputs] at hv
    | some l1 =>
      cases l2? with
      | none => simp [validateInputs] at hv
      | some l2 =>
        unfold analyzeAt
        rw [hv]
        exact ⟨rfl, rfl⟩

/-- Fixture: game 77 at 100 minutes. -/
def gameP1 : Game := { appId := 77, name := "P", playtimeForever := 100 }

/-- Fixture: game 77 at 200 minutes. -/
def gameP2 : Game := { appId := 77, name := "P", playtimeForever := 200 }

/-- Fixture: the CommonGame `findCommonGames 30 [gameP1] [gameP2]` yields. -/
def commonP : CommonGame :=
  { appId := 77, name := "P", user1Playtime := 100, user2Playtime := 200,
    compatibilityFactor := 17/40, isCoopSupported := false, genres := [] }

/-- Identifier membership in the common-game list equals joint membership in
both input sequences. -/
theorem mem_findCommonGames_ids (t : Rat) (g1 g2 : List Game) (i : Nat) :
    i ∈ (findCommonGames t g1 g2).map (fun c => c.appId) ↔
      ((∃ a ∈ g1, a.appId = i) ∧ ∃ b ∈ g2, b.appId = i) := by
  unfold findCommonGames
  rw [List.mem_map]
  constructor
  · rintro ⟨c, hc, hci⟩
    rw [List.mem_insertionSort, List.mem_filterMap] at hc
    obtain ⟨a, ha, hfa⟩ := hc
    unfold commonEntry at hfa
    cases hfind : g2.reverse.find? (fun g => g.appId = a.appId) with
    | none => rw [hfind] at hfa; cases hfa
    | some b =>
      rw [hfind] at hfa
      have hrec := Option.some.inj hfa
      have hcid : c.appId = a.appId := by rw [← hrec]
      have hb2 : b ∈ g2 := List.mem_reverse.mp (List.mem_of_find?_eq_some hfind)
      have hbid : b.appId = a.appId := by simpa using List.find?_some hfind
      exact ⟨⟨a, ha, by rw [← hcid, hci]⟩, ⟨b, hb2, by rw [hbid, ← hcid, hci]⟩⟩
  · rintro ⟨⟨a, ha, hai⟩, ⟨b, hb, hbi⟩⟩
    obtain ⟨b2, hfind⟩ : ∃ b2, g2.reverse.find? (fun g => g.appId = a.appId) = some b2 := by
      rw [← Option.isSome_iff_exists, List.find?_isSome]
      exact ⟨b, List.mem_reverse.mpr hb, by simp [hbi, hai]⟩
    refine ⟨{ appId := a.appId, name := a.name,
              user1Playtime := a.playtimeForever,
              user2Playtime := b2.playtimeForever,
              compatibilityFactor :=
                calculateGameCompatibilityFactor t a.playtimeForever b2.playtimeForever,
              isCoopSupported := isCoopGame a.appId,
              genres := a.genres.getD [] }, ?_, hai⟩
    rw [List.mem_insertionSort, List.mem_filterMap]
    refine ⟨a, ha, ?_⟩
    unfold commonEntry
    rw [hfind]

/-- C7: common-game detection is commutative in identifier membership, every
emitted entry takes `user1Playtime` and the genre set from the
first-argument copy of the game, and attribute order is not commutative:
swapping the two one-game libraries holding game 77 at 100 and 200 minutes
swaps `user1Playtime` from 100 to 200. -/
theorem C7_common_game_detection (t : Rat) (g1 g2 : List Game) :
    (∀ i : Nat, i ∈ (findCommonGames t g1 g2).map (fun c => c.appId) ↔
        i ∈ (findCommonGames t g2 g1).map (fun c => c.appId)) ∧
    (∀ c ∈ findCommonGames t g1 g2, ∃ a ∈ g1, a.appId = c.appId ∧
        c.user1Playtime = a.playtimeForever ∧ c.genres = a.genres.getD []) ∧
    ((findCommonGames 30 [gameP1] [gameP2]).map (fun c => c.user1Playtime) = [100] ∧
      (findCommonGames 30 [gameP2] [gameP1]).map (fun c => c.user1Playtime) = [200]) := by
  refine ⟨?_, ?_, ?_, ?_⟩
  · intro i
    rw [mem_findCommonGames_ids, mem_findCommonGames_ids]
    exact and_comm
  · intro c hc
    unfold findCommonGames at hc
    rw [List.mem_insertionSort, List.mem_filterMap] at hc
    obtain ⟨a, ha, hfa⟩ := hc
    unfold commonEntry at hfa
    cases hfind : g2.reverse.find? (fun g => g.appId = a.appId) with
    | none => rw [hfind] at hfa; cases hfa
    | some b =>
      rw [hfind] at hfa
      have hrec := Option.some.inj hfa
      subst hrec
      exact ⟨a, ha, rfl, rfl, rfl⟩
  · with_unfolding_all decide
  · with_unfolding_all decide

/-- C7 witness: the attribute-provenance conjunct applied to the concrete
one-game libraries. -/
theorem C7_common_game_detection_witness :
    ∃ a ∈ [gameP1], a.appId = commonP.appId ∧
      commonP.user1Playtime = a.playtimeForever ∧
      commonP.genres = a.genres.getD [] :=
  (C7_common_game_detection 30 [gameP1] [gameP2]).2.1 commonP
    (by with_unfolding_all decide)

/-- Frame account of CompatibilityAnalyzer.findCommonGames (source lines
108-138): it iterates `games1`, builds a fresh Map over `games2` and sorts
only the freshly pushed `commonGames` array; both argument arrays are
returned as the call leaves them. -/
def findCommonGamesSt (t : Rat) (games1 games2 : List Game) :
    List CommonGame × List Game × List Game :=
  (findCommonGames t games1 games2, games1, games2)

/-- Frame account of analyzeGenreCompatibility: both argument arrays are
only iterated; the counting maps, genre set and output array are fresh. -/
def analyzeGenreCompatibilitySt (t : Rat) (games1 games2 : List Game) :
    List GenreCompatibility × List Game × List Game :=
  (analyzeGenreCompatibility t games1 games2, games1, games2)

/-- Frame account of calculatePlaytimeCompatibility: the common list is only
iterated; the accumulators and playtime arrays are fresh. -/
def calculatePlaytimeCompatibilitySt (commonGames : List CommonGame) :
    PlaytimeCompatibility × List CommonGame :=
  (calculatePlaytimeCompatibility commonGames, commonGames)

/-- Frame account of CoopGameSuggester.generateSuggestions: the common list
and both game arrays are only read (`map`, membership tests, iteration); the
filter object is only read; suggestion arrays are fresh and the in-place
sort targets a fresh `Array.from` result. -/
def generateSuggestionsSt (maxSuggestions : Nat) (commonGames : List CommonGame)
    (user1Games user2Games : List Game) (filter? : Option CoopGameFilter) :
    List CoopGameSuggestion ×
      List CommonGame × List Game × List Game × Option CoopGameFilter :=
  (generateSuggestions maxSuggestions commonGames user1Games user2Games filter?,
    commonGames, user1Games, user2Games, filter?)

/-- Frame account of generateRecommendations: both game arrays and the
common list are only filtered and iterated; the in-place sort targets the
freshly pushed recommendation array. -/
def generateRecommendationsSt (cfg : CompatibilityAnalysisConfig)
    (games1 games2 : List Game) (commonGames : List CommonGame) :
    List GameRecommendation × List Game × List Game × List CommonGame :=
  (generateRecommendations cfg games1 games2 commonGames, games1, games2, commonGames)

/-- State-threading rendering of `analyze` for the frame property: the
caller-visible argument objects (both libraries, the optional filter) are
threaded through every pipeline stage exactly as the stages leave them, and
returned next to the result. -/
def analyzeSt (t : Rat) (cfg : CompatibilityAnalysisConfig)
    (library1 library2 : Option GameLibrary) (user1SteamId user2SteamId : String)
    (coopFilter? : Option CoopGameFilter) :
    Except AnalyzeError CompatibilityResult ×
      Option GameLibrary × Option GameLibrary × Option CoopGameFilter :=
  match validateInputs library1 library2 with
  | some e => (.error e, library1, library2, coopFilter?)
  | none =>
    match library1, library2 with
    | some l1, some l2 =>
      let (commonGames, g1a, g2a) :=
        findCommonGamesSt cfg.minPlaytimeForAnalysis l1.games l2.games
      let (genreCompatibility, g1b, g2b) :=
        analyzeGenreCompatibilitySt cfg.minPlaytimeForAnalysis g1a g2a
      let (playtimeCompatibility, cgA) := calculatePlaytimeCompatibilitySt commonGames
      let (coopSuggestions, cgB, g1c, g2c, fA) :=
        generateSuggestionsSt cfg.maxCoopSuggestions cgA g1b g2b coopFilter?
      let baseScore := calculateBaseScore cgB g1c.length g2c.length
      let genreScore := calculateGenreScore genreCompatibility
      let playtimeScore := calculatePlaytimeScore playtimeCompatibility
      let coopBonus := calculateCoopBonus coopSuggestions
      let finalScore := jsMin 100 (jsMax 0
        (baseScore * cfg.weights.commonGames
          + genreScore * cfg.weights.genreCompatibility
          + playtimeScore * cfg.weights.playtimeCompatibility
          + coopBonus * cfg.weights.coopBonus))
      let (recommendations, g1d, g2d, cgC) := generateRecommendationsSt cfg g1c g2c cgB
      (.ok { score := jsRound finalScore
             commonGames := cgC
             genreCompatibility
             playtimeCompatibility
             recommendations
             coopSuggestions
             analysisDate := t
             user1SteamId
             user2SteamId },
       some { l1 with games := g1d }, some { l2 with games := g2d }, fA)
    | _, _ =>
      (.error (.plainError "Both game libraries are required"),
        library1, library2, coopFilter?)

/-- C9: `analyze` never mutates its inputs — after any invocation,
successful or failing, the threaded post-call values of both library
arguments and the optional filter equal the pre-call values, and the
threaded pipeline computes the same result as the direct one. -/
theorem C9_analyze_preserves_inputs (t : Rat) (cfg : CompatibilityAnalysisConfig)
    (l1? l2? : Option GameLibrary) (u1 u2 : String) (f : Option CoopGameFilter) :
    (analyzeSt t cfg l1? l2? u1 u2 f).2 = (l1?, l2?, f) ∧
    (analyzeSt t cfg l1? l2? u1 u2 f).1 = analyzeAt t cfg l1? l2? u1 u2 f := by
  cases hv : validateInputs l1? l2? with
  | some e =>
    unfold analyzeSt analyzeAt
    rw [hv]
    exact ⟨rfl, rfl⟩
  | none =>
    cases l1? with
    | none => simp [validateInputs] at hv
    | some l1 =>
      cases l2? with
      | none => simp [validateInputs] at hv
      | some l2 =>
        unfold analyzeSt analyzeAt
        rw [hv]
        exact ⟨rfl, rfl⟩

/-- The in-place replacement step of the deduplication map preserves the
stored identifiers. -/
theorem dedupReplace_ids (s : CoopGameSuggestion) (acc : List CoopGameSuggestion) :
    ((acc.map (fun e =>
        if e.appId = s.appId ∧ e.compatibilityScore < s.compatibilityScore
        then s else e)).map (fun x => x.appId)) = acc.map (fun x => x.appId) := by
  rw [List.map_map]
  refine List.map_congr_left ?_
  intro e _
  by_cases hc : e.appId = s.appId ∧ e.compatibilityScore < s.compatibilityScore
  · simp only [Function.comp_apply, if_pos hc]
    exact hc.1.symm
  · simp only [Function.comp_apply, if_neg hc]

/-- Fold invariant of the deduplication loop: accumulator entries come from
the processed input, dominate every processed entry sharing their id, and
carry duplicate-free ids; every processed id is covered by the accumulator. -/
theorem dedupFold_invariant (l : List CoopGameSuggestion) :
    ∀ acc seen : List CoopGameSuggestion,
      (∀ e ∈ acc, e ∈ seen) →
      (∀ e ∈ acc, ∀ x ∈ seen, x.appId = e.appId →
        x.compatibilityScore ≤ e.compatibilityScore) →
      (∀ x ∈ seen, ∃ e ∈ acc, e.appId = x.appId) →
      ((acc.map (fun x => x.appId)).Nodup) →
      ((∀ e ∈ l.foldl dedupStep acc, e ∈ seen ++ l) ∧
        (∀ e ∈ l.foldl dedupStep acc, ∀ x ∈ seen ++ l, x.appId = e.appId →
          x.compatibilityScore ≤ e.compatibilityScore) ∧
        (((l.foldl dedupStep acc).map (fun x => x.appId)).Nodup)) := by
  induction l with
  | nil =>
    intro acc seen hmem hdom _hcover hnodup
    simpa using ⟨hmem, hdom, hnodup⟩
  | cons s l ih =>
    intro acc seen hmem hdom hcover hnodup
    rw [List.foldl_cons]
    by_cases h : acc.any (fun e => e.appId = s.appId)
    · have hstep : dedupStep acc s = acc.map (fun e =>
          if e.appId = s.appId ∧ e.compatibilityScore < s.compatibilityScore
          then s else e) := by
        unfold dedupStep
        rw [if_pos h]
      have inv1 : ∀ e ∈ dedupStep acc s, e ∈ seen ++ [s] := by
        rw [hstep]
        intro e2 he2
        rw [List.mem_map] at he2
        obtain ⟨e, he, heq⟩ := he2
        by_cases hc : e.appId = s.appId ∧ e.compatibilityScore < s.compatibilityScore
        · rw [if_pos hc] at heq
          subst heq
          exact List.mem_append_right _ (by simp)
        · rw [if_neg hc] at heq
          subst heq
          exact List.mem_append_left _ (hmem e he)
      have inv2 : ∀ e2 ∈ dedupStep acc s, ∀ x ∈ seen ++ [s], x.appId = e2.appId →
          x.compatibilityScore ≤ e2.compatibilityScore := by
        rw [hstep]
        intro e2 he2 x hx hxid
        rw [List.mem_map] at he2
        obtain ⟨e, he, heq⟩ := he2
        rcases List.mem_append.mp hx with hxs | hxs
        · by_cases hc : e.appId = s.appId ∧ e.compatibilityScore < s.compatibilityScore
          · rw [if_pos hc] at heq
            subst heq
            have hxe : x.appId = e.appId := by rw [hxid, ← hc.1]
            exact le_of_lt (lt_of_le_of_lt (hdom e he x hxs hxe) hc.2)
          · rw [if_neg hc] at heq
            subst heq
            exact hdom e he x hxs hxid
        · have hxs2 : x = s := by simpa using hxs
          rw [hxs2] at hxid ⊢
          by_cases hc : e.appId = s.appId ∧ e.compatibilityScore < s.compatibilityScore
          · rw [if_pos hc] at heq
            subst heq
            exact le_refl _
          · rw [if_neg hc] at heq
            subst heq
            exact le_of_not_lt (fun hlt => hc ⟨hxid.symm, hlt⟩)
      have inv3 : ∀ x ∈ seen ++ [s], ∃ e ∈ dedupStep acc s, e.appId = x.appId := by
        rw [hstep]
        intro x hx
        rcases List.mem_append.mp hx with hxs | hxs
        · obtain ⟨e, he, heid⟩ := hcover x hxs
          refine ⟨_, List.mem_map_of_mem _ he, ?_⟩
          by_cases hc : e.appId = s.appId ∧ e.compatibilityScore < s.compatibilityScore
          · rw [if_pos hc, ← hc.1]
            exact heid
          · rw [if_neg hc]
            exact heid
        · have hxs2 : x = s := by simpa using hxs
          rw [hxs2]
          rw [List.any_eq_true] at h
          obtain ⟨a, ha, haid⟩ := h
          have haid2 : a.appId = s.appId := by simpa using haid
          refine ⟨_, List.mem_map_of_mem _ ha, ?_⟩
          by_cases hc : a.appId = s.appId ∧ a.compatibilityScore < s.compatibilityScore
          · rw [if_pos hc]
          · rw [if_neg hc]
            exact haid2
      have inv4 : ((dedupStep acc s).map (fun x => x.appId)).Nodup := by
        rw [hstep, dedupReplace_ids]
        exact hnodup
      have key := ih (dedupStep acc s) (seen ++ [s]) inv1 inv2 inv3 inv4
      rw [List.append_assoc, List.singleton_append] at key
      exact key
    · have hstep : dedupStep acc s = acc ++ [s] := by
        unfold dedupStep
        rw [if_neg h]
      have hnotin : ∀ e ∈ acc, e.appId ≠ s.appId := by
        intro e he heq
        exact h (List.any_eq_true.mpr ⟨e, he, by simp [heq]⟩)
      have inv1 : ∀ e ∈ dedupStep acc s, e ∈ seen ++ [s] := by
        rw [hstep]
        intro e he
        rcases List.mem_append.mp he with he | he
        · exact List.mem_append_left _ (hmem e he)
        · exact List.mem_append_right _ he
      have inv2 : ∀ e ∈ dedupStep acc s, ∀ x ∈ seen ++ [s], x.appId = e.appId →
          x.compatibilityScore ≤ e.compatibilityScore := by
        rw [hstep]
        intro e he x hx hxid
        rcases List.mem_append.mp he with he | he
        · rcases List.mem_append.mp hx with hx | hx
          · exact hdom e he x hx hxid
          · have hx2 : x = s := by simpa using hx
            rw [hx2] at hxid
            exact absurd hxid.symm (hnotin e he)
        · have he2 : e = s := by simpa using he
          rw [he2] at hxid ⊢
          rcases List.mem_append.mp hx with hx | hx
          · obtain ⟨a, ha, haid⟩ := hcover x hx
            exact absurd (haid.trans hxid) (hnotin a ha)
          · have hx2 : x = s := by simpa using hx
            rw [hx2]
      have inv3 : ∀ x ∈ seen ++ [s], ∃ e ∈ dedupStep acc s, e.appId = x.appId := by
        rw [hstep]
        intro x hx
        rcases List.mem_append.mp hx with hx | hx
        · obtain ⟨e, he, heid⟩ := hcover x hx
          exact ⟨e, List.mem_append_left _ he, heid⟩
        · have hx2 : x = s := by simpa using hx
          rw [hx2]
          exact ⟨s, List.mem_append_right _ (by simp), rfl⟩
      have inv4 : ((dedupStep acc s).map (fun x => x.appId)).Nodup := by
        rw [hstep, List.map_append, List.nodup_append]
        refine ⟨hnodup, List.nodup_singleton _, ?_⟩
        intro i hi hi2
        have hi3 : i = s.appId := by simpa using hi2
        subst hi3
        rw [List.mem_map] at hi
        obtain ⟨e, he, heid⟩ := hi
        exact hnotin e he heid
      have key := ih (dedupStep acc s) (seen ++ [s]) inv1 inv2 inv3 inv4
      rw [List.append_assoc, List.singleton_append] at key
      exact key

/-- Specification of the deduplication map: output elements come from the
input, dominate every input element sharing their id, and carry
duplicate-free ids. -/
theorem dedupByAppId_spec (l : List CoopGameSuggestion) :
    (∀ s ∈ dedupByAppId l, s ∈ l ∧ ∀ x ∈ l, x.appId = s.appId →
      x.compatibilityScore ≤ s.compatibilityScore) ∧
    ((dedupByAppId l).map (fun x => x.appId)).Nodup := by
  have key := dedupFold_invariant l [] [] (by simp) (by simp) (by simp) (by simp)
  unfold dedupByAppId
  simp only [List.nil_append] at key
  exact ⟨fun s hs => ⟨key.1 s hs, key.2.1 s hs⟩, key.2.2⟩

/-- Output of removeDuplicatesAndSort stays within the input, keeps the
highest score per identifier, and carries duplicate-free ids. -/
theorem removeDuplicatesAndSort_spec (l : List CoopGameSuggestion) :
    (∀ s ∈ removeDuplicatesAndSort l, s ∈ l ∧ ∀ x ∈ l, x.appId = s.appId →
      x.compatibilityScore ≤ s.compatibilityScore) ∧
    ((removeDuplicatesAndSort l).map (fun x => x.appId)).Nodup := by
  unfold removeDuplicatesAndSort
  constructor
  · intro s hs
    rw [List.mem_insertionSort] at hs
    exact (dedupByAppId_spec l).1 s hs
  · have hperm := List.perm_insertionSort
      (fun a b => b.compatibilityScore ≤ a.compatibilityScore) (dedupByAppId l)
    exact ((hperm.map (fun x => x.appId)).nodup_iff).mpr (dedupByAppId_spec l).2

/-- Filtering only removes suggestions. -/
theorem mem_of_mem_applyFilter (l : List CoopGameSuggestion)
    (filter? : Option CoopGameFilter) (s : CoopGameSuggestion)
    (h : s ∈ applyFilter l filter?) : s ∈ l := by
  cases filter? with
  | none => exact h
  | some filter => exact List.mem_of_mem_filter h

/-- Mapping a key over a filterMap whose emissions preserve a projection
yields a sublist of the projected input. -/
theorem map_filterMap_sublist {α β γ : Type} (f : α → Option β) (key : β → γ)
    (proj : α → γ) (h : ∀ a b, f a = some b → key b = proj a) (l : List α) :
    List.Sublist ((l.filterMap f).map key) (l.map proj) := by
  induction l with
  | nil => simp
  | cons a l ih =>
    cases hfa : f a with
    | none =>
      rw [List.filterMap_cons_none hfa, List.map_cons]
      exact ih.cons _
    | some b =>
      rw [List.filterMap_cons_some hfa, List.map_cons, List.map_cons, h a b hfa]
      exact ih.cons₂ _

/-- Emitted common-game entries keep the id of the first-sequence game. -/
theorem commonEntry_appId (t : Rat) (g2 : List Game) :
    ∀ a b, commonEntry t g2 a = some b → b.appId = a.appId := by
  intro a b hab
  unfold commonEntry at hab
  cases hfind : g2.reverse.find? (fun g => g.appId = a.appId) with
  | none => rw [hfind] at hab; cases hab
  | some x =>
    rw [hfind] at hab
    rw [← Option.some.inj hab]

/-- Common-game ids are duplicate-free whenever the first sequence's ids
are. -/
theorem findCommonGames_ids_nodup (t : Rat) (g1 g2 : List Game)
    (h : (g1.map (fun g => g.appId)).Nodup) :
    ((findCommonGames t g1 g2).map (fun c => c.appId)).Nodup := by
  unfold findCommonGames
  have hsub := map_filterMap_sublist (commonEntry t g2) (fun c => c.appId)
    (fun g => g.appId) (commonEntry_appId t g2) g1
  have hnodup : ((g1.filterMap (commonEntry t g2)).map (fun c => c.appId)).Nodup :=
    h.sublist hsub
  have hperm := List.perm_insertionSort
    (fun a b => b.compatibilityFactor ≤ a.compatibilityFactor)
    (g1.filterMap (commonEntry t g2))
  exact ((hperm.map (fun c => c.appId)).nodup_iff).mpr hnodup

/-- JS `Set.add` keeps the genre list duplicate-free. -/
theorem addUnique_nodup (l : List String) (g : String) (h : l.Nodup) :
    (addUnique l g).Nodup := by
  unfold addUnique
  by_cases hg : g ∈ l
  · rw [if_pos hg]
    exact h
  · rw [if_neg hg]
    rw [List.nodup_append]
    refine ⟨h, List.nodup_singleton _, ?_⟩
    intro a ha ha2
    have ha3 : a = g := by simpa using ha2
    subst ha3
    exact hg ha

/-- Folding `Set.add` over a genre list keeps the set duplicate-free. -/
theorem foldl_addUnique_nodup (gs : List String) :
    ∀ acc : List String, acc.Nodup → (gs.foldl addUnique acc).Nodup := by
  induction gs with
  | nil => intro acc h; exact h
  | cons g gs ih =>
    intro acc h
    rw [List.foldl_cons]
    exact ih _ (addUnique_nodup acc g h)

/-- The insertion-ordered genre union is duplicate-free. -/
theorem genreUnionFrom_nodup (t : Rat) (games : List Game) :
    ∀ acc : List String, acc.Nodup → (genreUnionFrom acc t games).Nodup := by
  induction games with
  | nil => intro acc h; exact h
  | cons game games ih =>
    intro acc h
    have hcons : genreUnionFrom acc t (game :: games) =
        genreUnionFrom (match game.genres with
          | some gs => if t ≤ game.playtimeForever then gs.foldl addUnique acc else acc
          | none => acc) t games := rfl
    rw [hcons]
    apply ih
    cases hg : game.genres with
    | none => simpa [hg] using h
    | some gs =>
      simp only [hg]
      split
      · exact foldl_addUnique_nodup gs acc h
      · exact h

/-- Emitted genre records carry the genre they were built for. -/
theorem genreRecord_genre (c1 c2 : List (String × Nat)) :
    ∀ a b, genreRecord c1 c2 a = some b → b.genre = a := by
  intro a b hab
  simp only [genreRecord] at hab
  split at hab
  · rw [← Option.some.inj hab]
  · cases hab

/-- Genre labels of the genre-affinity output are duplicate-free. -/
theorem analyzeGenreCompatibility_genres_nodup (t : Rat) (g1 g2 : List Game) :
    ((analyzeGenreCompatibility t g1 g2).map (fun r => r.genre)).Nodup := by
  simp only [analyzeGenreCompatibility]
  have hall : (genreUnionFrom (genreUnionFrom [] t g1) t g2).Nodup :=
    genreUnionFrom_nodup t g2 _ (genreUnionFrom_nodup t g1 [] List.nodup_nil)
  have hsub := map_filterMap_sublist
    (genreRecord (countMapOf t g1) (countMapOf t g2))
    (fun r => r.genre) (fun g => g)
    (genreRecord_genre (countMapOf t g1) (countMapOf t g2))
    (genreUnionFrom (genreUnionFrom [] t g1) t g2)
  rw [List.map_id'] at hsub
  have hnodup := hall.sublist hsub
  have hperm := List.perm_insertionSort
    (fun a b => b.compatibilityScore ≤ a.compatibilityScore)
    ((genreUnionFrom (genreUnionFrom [] t g1) t g2).filterMap
      (genreRecord (countMapOf t g1) (countMapOf t g2)))
  exact ((hperm.map (fun r => r.genre)).nodup_iff).mpr hnodup

/-- Co-op suggestion ids are duplicate-free for every input. -/
theorem generateSuggestions_ids_nodup (m : Nat) (cg : List CommonGame)
    (g1 g2 : List Game) (f : Option CoopGameFilter) :
    ((generateSuggestions m cg g1 g2 f).map (fun s => s.appId)).Nodup := by
  unfold generateSuggestions
  have h := (removeDuplicatesAndSort_spec (applyFilter
    (extractCoopFromCommonGames cg ++ generatePreferenceBasedSuggestions g1 g2 cg
      ++ popularSource cg g1 g2) f)).2
  rw [List.map_take]
  exact h.sublist (List.take_sublist _ _)

/-- C8 counterexample: a first library whose games array repeats game 10
makes `analyze` emit that id twice in the CommonGame list. -/
theorem C8_counterexample :
    (analyzeAt 0 defaultConfig
        (some { games := [gameA, gameA], totalCount := 2, isPublic := true })
        (some libraryA) "a" "b" none).toOption.map
      (fun r => r.commonGames.map (fun c => c.appId)) = some [10, 10] ∧
    ¬ ([10, 10] : List Nat).Nodup := by
  refine ⟨by with_unfolding_all decide, by decide⟩

/-- C8 amended: common-game ids are duplicate-free whenever the first
sequence's ids are (a real Steam library lists each game once; a repeated
first-sequence id is emitted repeatedly); genre labels and co-op suggestion
ids are duplicate-free for every input; and the co-op deduplication keeps
per identifier an instance of maximal score drawn from its input. -/
theorem C8_no_duplicate_identifiers :
    (∀ (t : Rat) (g1 g2 : List Game), (g1.map (fun g => g.appId)).Nodup →
      ((findCommonGames t g1 g2).map (fun c => c.appId)).Nodup) ∧
    (∀ (t : Rat) (g1 g2 : List Game),
      ((analyzeGenreCompatibility t g1 g2).map (fun r => r.genre)).Nodup) ∧
    (∀ (m : Nat) (cg : List CommonGame) (g1 g2 : List Game)
        (f : Option CoopGameFilter),
      ((generateSuggestions m cg g1 g2 f).map (fun s => s.appId)).Nodup) ∧
    (∀ l : List CoopGameSuggestion, ∀ s ∈ removeDuplicatesAndSort l,
      s ∈ l ∧ ∀ x ∈ l, x.appId = s.appId →
        x.compatibilityScore ≤ s.compatibilityScore) :=
  ⟨findCommonGames_ids_nodup,
    analyzeGenreCompatibility_genres_nodup,
    generateSuggestions_ids_nodup,
    fun l => (removeDuplicatesAndSort_spec l).1⟩

/-- C8 witness: duplicate-freeness of the common-game ids instantiated on
the concrete one-game libraries. -/
theorem C8_no_duplicate_identifiers_witness :
    ((findCommonGames 30 [gameP1] [gameP2]).map (fun c => c.appId)).Nodup :=
  C8_no_duplicate_identifiers.1 30 [gameP1] [gameP2] (by decide)

/-- Fixture: the flat popularity-source suggestion for Left 4 Dead 2. -/
def coopL4D2 : CoopGameSuggestion :=
  { appId := 550, name := "Left 4 Dead 2", coopType := .onlineCoop, maxPlayers := 4,
    description := "ゾンビサバイバル協力シューター。4人でゾンビの群れを突破",
    steamUrl := "https://store.steampowered.com/app/550/Left_4_Dead_2/",
    compatibilityScore := 60, recommendationReason := "人気のオンラインco-opゲーム",
    bothOwnGame := false }

/-- Fixture: the Left 4 Dead 2 catalog record. -/
def l4d2Info : CoopGameInfo :=
  { appId := 550, name := "Left 4 Dead 2", coopType := .onlineCoop, maxPlayers := 4,
    description := "ゾンビサバイバル協力シューター。4人でゾンビの群れを突破",
    steamUrl := "https://store.steampowered.com/app/550/Left_4_Dead_2/",
    genres := ["Action", "Co-op", "Zombies", "FPS"], isPopular := true }

/-- C10: owned-common candidates are capped at 95, preference-matched at 90,
popular candidates are a constant 60, and every suggestion the pipeline
returns scores at most 95 — never 100. -/
theorem C10_suggestion_scores_bounded :
    (∀ cg, ∀ s ∈ extractCoopFromCommonGames cg, s.compatibilityScore ≤ 95) ∧
    (∀ g1 g2 cg, ∀ s ∈ generatePreferenceBasedSuggestions g1 g2 cg,
      s.compatibilityScore ≤ 90) ∧
    (∀ g1 g2 ex, ∀ s ∈ generatePopularGameSuggestions g1 g2 ex,
      s.compatibilityScore = 60) ∧
    (∀ m cg g1 g2 f, ∀ s ∈ generateSuggestions m cg g1 g2 f,
      s.compatibilityScore ≤ 95) := by
  have h95 : ∀ cg, ∀ s ∈ extractCoopFromCommonGames cg,
      s.compatibilityScore ≤ 95 := by
    intro cg s hs
    simp only [extractCoopFromCommonGames] at hs
    rw [List.mem_filterMap] at hs
    obtain ⟨g, _hg, hfg⟩ := hs
    cases hinfo : getCoopGameInfo g.appId with
    | none => rw [hinfo] at hfg; cases hfg
    | some info =>
      rw [hinfo] at hfg
      rw [← Option.some.inj hfg]
      show jsMin 95 _ ≤ 95
      rw [jsMin_eq_min]
      exact min_le_left _ _
  have h90 : ∀ g1 g2 cg, ∀ s ∈ generatePreferenceBasedSuggestions g1 g2 cg,
      s.compatibilityScore ≤ 90 := by
    intro g1 g2 cg s hs
    simp only [generatePreferenceBasedSuggestions] at hs
    rw [List.mem_filterMap] at hs
    obtain ⟨c, _hc, hfc⟩ := hs
    by_cases howned : c.appId ∈
        (g1.map (fun g => g.appId) ++ g2.map (fun g => g.appId))
    · rw [if_pos howned] at hfc
      cases hfc
    · rw [if_neg howned] at hfc
      by_cases hratio : (3:Rat)/10 <
          calculateGenreMatchScore c.genres (analyzePreferredGenres g1 g2 cg)
      · rw [if_pos hratio] at hfc
        rw [← Option.some.inj hfc]
        show jsMin 90 _ ≤ 90
        rw [jsMin_eq_min]
        exact min_le_left _ _
      · rw [if_neg hratio] at hfc
        cases hfc
  have h60 : ∀ g1 g2 ex, ∀ s ∈ generatePopularGameSuggestions g1 g2 ex,
      s.compatibilityScore = 60 := by
    intro g1 g2 ex s hs
    simp only [generatePopularGameSuggestions] at hs
    rw [List.mem_map] at hs
    obtain ⟨c, _hc, heq⟩ := hs
    rw [← heq]
  refine ⟨h95, h90, h60, ?_⟩
  intro m cg g1 g2 f s hs
  simp only [generateSuggestions] at hs
  have h1 := List.mem_of_mem_take hs
  have h2 := ((removeDuplicatesAndSort_spec _).1 s h1).1
  have h3 := mem_of_mem_applyFilter _ f s h2
  rcases List.mem_append.mp h3 with h4 | h4
  · rcases List.mem_append.mp h4 with h5 | h5
    · exact h95 cg s h5
    · exact le_trans (h90 g1 g2 cg s h5) (by norm_num)
  · have h6 : s ∈ generatePopularGameSuggestions g1 g2
        (popularExcludeIds cg g1 g2) := h4
    rw [h60 g1 g2 _ s h6]
    norm_num

/-- Fixture: a common-game record for Left 4 Dead 2 at factor 1. -/
def commonL4D2 : CommonGame :=
  { appId := 550, name := "L", user1Playtime := 1000, user2Playtime := 1000,
    compatibilityFactor := 1, isCoopSupported := true, genres := [] }

/-- Fixture: the owned-common suggestion `extractCoopFromCommonGames` emits
for `commonL4D2`. -/
def coopOwnedL4D2 : CoopGameSuggestion :=
  { appId := 550, name := "L", coopType := .onlineCoop, maxPlayers := 4,
    description := "ゾンビサバイバル協力シューター。4人でゾンビの群れを突破",
    steamUrl := "https://store.steampowered.com/app/550/Left_4_Dead_2/",
    compatibilityScore := 95,
    recommendationReason := "既に両方が所有しているオンラインco-opゲーム",
    bothOwnGame := true }

/-- C10 witness: the owned-common bound applied to the suggestion emitted
for a concrete factor-1 common game. -/
theorem C10_suggestion_scores_bounded_witness :
    coopOwnedL4D2.compatibilityScore ≤ 95 :=
  C10_suggestion_scores_bounded.1 [commonL4D2] coopOwnedL4D2 (by
    rw [show extractCoopFromCommonGames [commonL4D2] = [coopOwnedL4D2] from by
      with_unfolding_all rfl]
    exact List.mem_singleton.mpr rfl)

/-- C4 counterexample: with one owned Puzzle game (300 minutes), Portal 2
(id 620) is popular, owned by neither user and absent from source 1, yet the
popularity source omits its flat-60 entry because source 2 produced 620. -/
theorem C4_counterexample :
    (getCoopGameInfo 620).map (fun c => c.isPopular) = some true ∧
    620 ∉ ([gamePuzzle].map (fun g => g.appId) ++ ([] : List Game).map (fun g => g.appId)) ∧
    620 ∉ (extractCoopFromCommonGames []).map (fun s => s.appId) ∧
    620 ∈ (generatePreferenceBasedSuggestions [gamePuzzle] [] []).map (fun s => s.appId) ∧
    620 ∉ (popularSource [] [gamePuzzle] []).map (fun s => s.appId) := by
  refine ⟨by with_unfolding_all decide, by with_unfolding_all decide,
    by with_unfolding_all decide, by with_unfolding_all decide,
    by with_unfolding_all decide⟩

/-- C4 amended: the popularity source includes, at a flat score of 60, every
catalog game flagged popular that is owned by neither user and was produced
by neither source 1 nor source 2 (the exclusion list generateSuggestions
passes holds the ids of both earlier sources); conversely every
popularity-source entry scores exactly 60, is not co-owned, and its id
avoids that exclusion list. -/
theorem C4_popular_source_membership (cg : List CommonGame) (g1 g2 : List Game) :
    (∀ c ∈ getAllCoopGames, c.isPopular = true →
      c.appId ∉ (g1.map (fun g => g.appId) ++ g2.map (fun g => g.appId)) →
      c.appId ∉ popularExcludeIds cg g1 g2 →
      ({ appId := c.appId, name := c.name, coopType := c.coopType,
         maxPlayers := c.maxPlayers, description := c.description,
         steamUrl := c.steamUrl, compatibilityScore := 60,
         recommendationReason := "人気の" ++ getCoopTypeText c.coopType ++ "co-opゲーム",
         bothOwnGame := false } : CoopGameSuggestion) ∈ popularSource cg g1 g2) ∧
    (∀ s ∈ popularSource cg g1 g2, s.compatibilityScore = 60 ∧
      s.bothOwnGame = false ∧ s.appId ∉ popularExcludeIds cg g1 g2) := by
  constructor
  · intro c hc hpop howned hexcl
    simp only [popularSource, generatePopularGameSuggestions]
    rw [List.mem_map]
    refine ⟨c, ?_, rfl⟩
    rw [List.mem_filter]
    constructor
    · simp only [getPopularCoopGames]
      rw [List.mem_filter]
      exact ⟨hc, by simp [hpop]⟩
    · simp [howned, hexcl]
  · intro s hs
    simp only [popularSource, generatePopularGameSuggestions] at hs
    rw [List.mem_map] at hs
    obtain ⟨c, hc, heq⟩ := hs
    rw [List.mem_filter] at hc
    have hcond := hc.2
    simp only [decide_not, Bool.not_eq_true', decide_eq_false_iff_not] at hcond
    rw [not_or] at hcond
    rw [← heq]
    exact ⟨rfl, rfl, hcond.2⟩

/-- C4 witness: the flat-60 Left 4 Dead 2 entry appears in the popularity
source for a pair owning only the genreless game 10. -/
theorem C4_popular_source_membership_witness :
    coopL4D2 ∈ popularSource [] [gameA] [] := by
  have hc : l4d2Info ∈ getAllCoopGames := by
    unfold getAllCoopGames coopGamesDatabase
    exact List.mem_cons_self _ _
  have howned : (550 : Nat) ∉
      ([gameA].map (fun g => g.appId) ++ ([] : List Game).map (fun g => g.appId)) := by
    rw [show ([gameA].map (fun g => g.appId)
        ++ ([] : List Game).map (fun g => g.appId)) = [10] from by with_unfolding_all rfl]
    decide
  have hexcl : (550 : Nat) ∉ popularExcludeIds [] [gameA] [] := by
    rw [show popularExcludeIds [] [gameA] [] = ([] : List Nat) from by
      with_unfolding_all rfl]
    exact List.not_mem_nil _
  have h := (C4_popular_source_membership [] [gameA] []).1 l4d2Info hc rfl howned hexcl
  exact h

end SteamCC
